import Mathlib

/-!
Verification of `classy_vision/hooks/torchscript_hook.py` (TorchscriptHook).

The hook is embedded shallowly: each Python method becomes a Lean function
from an explicit run state to a final state, a list of observable effects
(log lines, filesystem accesses, calls into the tracer/scripter), and an
`Except`-style outcome modelling normal return versus a raised exception.
External collaborators (the distributed-primary predicate, the path manager,
the tracer/scripter) are modelled by an `Env` of oracle answers; collaborators
that are code of this repository but outside the analysed file (`eval_model`,
`get_model_dummy_input`) are modelled from the specification and marked so.
-/

namespace ClassyVision

/-- A single-quote character, used to build the exact Python log/error strings. -/
def sq : String := String.singleton (Char.ofNat 39)

/-- Python runtime values, as far as the constructor's dynamic type check needs. -/
inductive PyValue where
  | str (s : String)
  | int (n : Int)
  | boolean (b : Bool)
  | pyNone
  deriving DecidableEq

/-- Python exceptions that can cross the hook's boundary. -/
inductive PyError where
  | assertionError (msg : String)
  | attributeError (msg : String)
  | fileNotFoundError (msg : String)
  | tracerError
  | scripterError
  | storageWriteError
  deriving DecidableEq

/-- A torchscript program: how it was produced, the strictness used (trace only),
the device it currently lives on, and an opaque identifier of the model
computation it was extracted from. -/
structure Program where
  viaTrace : Bool
  strict : Bool
  onDevice : String
  source : Nat
  deriving DecidableEq

/-- The task's model, as the hook sees it: an opaque computation (`arch`), the
device it lives on, and the two optional introspection attributes.
`input_shape = Option.none` models the attribute being absent (so that
`hasattr` answers false); `some []` models an attribute that is present but
falsy in Python. -/
structure Model where
  arch : Nat
  modelDevice : String
  input_shape : Option (List Nat)
  input_key : Option String
  deriving DecidableEq

/-- Mutable runtime state threaded through a call: the model's train/eval flag
and torch's global gradient-tracking flag. -/
structure RunState where
  modelTraining : Bool
  gradEnabled : Bool
  deriving DecidableEq

/-- Oracle answers of the external collaborators for one invocation. -/
structure Env where
  isPrimary : Bool
  folderExists : Bool
  tracerFails : Bool
  scripterFails : Bool
  writeFails : Bool
  deriving DecidableEq

/-- Observable effects of one invocation, in order. -/
inductive Effect where
  | logWarning (msg : String)
  | logInfo (msg : String)
  | getDummyInput (shape : List Nat) (key : Option String)
  | enterEval
  | exitEval
  | enterNoGrad
  | exitNoGrad
  | jitTrace (strict : Bool) (modelTraining : Bool) (gradEnabled : Bool)
  | jitScript (modelTraining : Bool) (gradEnabled : Bool)
  | queryExists (path : String)
  | openFile (path : String) (mode : String)
  | jitSave (p : Program)
  | closeFile (path : String)
  deriving DecidableEq

/-- The two context-manager objects appearing in `with eval_model(model) and
torch.no_grad():`. -/
inductive CMKind where
  | evalModelCM
  | noGradCM
  deriving DecidableEq

/-- Modelled from the spec: `eval_model` (classy_vision.generic.util, not part of
the analysed file) is a scoped eval-mode guard, i.e. an ordinary Python context
manager object; `torch.no_grad()` likewise. Neither object defines `__bool__`,
so both are truthy, which is what the Python `and` in the `with` line consults. -/
def CMKind.truthy : CMKind → Bool := fun _ => true

/-- Python `A and B`: if `A` is truthy the expression evaluates to `B`,
otherwise to `A`.  The `with` statement then enters only that one object. -/
def pyAnd (a b : CMKind) : CMKind := if a.truthy then b else a

/-- Modelled from the spec: entering `eval_model` saves the training flag and
puts the model in eval mode; entering `no_grad` saves and clears the gradient
flag.  Returns the new state, the effects, and the saved flag. -/
def cmEnter : CMKind → RunState → RunState × List Effect × Bool
  | CMKind.evalModelCM, s => (⟨false, s.gradEnabled⟩, [Effect.enterEval], s.modelTraining)
  | CMKind.noGradCM, s => (⟨s.modelTraining, false⟩, [Effect.enterNoGrad], s.gradEnabled)

/-- Modelled from the spec: exiting restores the flag saved at entry. -/
def cmExit : CMKind → Bool → RunState → RunState × List Effect
  | CMKind.evalModelCM, saved, s => (⟨saved, s.gradEnabled⟩, [Effect.exitEval])
  | CMKind.noGradCM, saved, s => (⟨s.modelTraining, saved⟩, [Effect.exitNoGrad])

/-- Python `with cm: body` — enter, run the body, and exit on every path
(normal return or exception). -/
def withCM {α : Type} (cm : CMKind)
    (body : RunState → RunState × List Effect × Except PyError α)
    (s : RunState) : RunState × List Effect × Except PyError α :=
  let e := cmEnter cm s
  let r := body e.1
  let x := cmExit cm e.2.2 r.1
  (x.1, e.2.1 ++ r.2.1 ++ x.2, r.2.2)

/-- `TORCHSCRIPT_FILE` constant of the hook module. -/
def TORCHSCRIPT_FILE : String := "torchscript.pt"

/-- The stored configuration of a constructed `TorchscriptHook`. -/
structure TorchscriptHook where
  torchscript_folder : String
  use_trace : Bool
  trace_strict : Bool
  device : String
  deriving DecidableEq

/-- Message of the `isinstance` assertion in `__init__`. -/
def assertMsg : String :=
  "torchscript_folder must be a string specifying the torchscript directory"

/-- `TorchscriptHook.__init__`: asserts the folder argument is a string, then
stores the four configuration values verbatim. -/
def TorchscriptHook.init (torchscript_folder : PyValue) (use_trace : Bool)
    (trace_strict : Bool) (device : String) : Except PyError TorchscriptHook :=
  match torchscript_folder with
  | PyValue.str s => Except.ok ⟨s, use_trace, trace_strict, device⟩
  | _ => Except.error (PyError.assertionError assertMsg)

/-- Python default values of the keyword arguments of `__init__`. -/
def TorchscriptHook.initWithDefaults (torchscript_folder : PyValue) :
    Except PyError TorchscriptHook :=
  TorchscriptHook.init torchscript_folder true true "cpu"

/-- Python truthiness of the `input_shape` value obtained by the hook:
`None` (attribute absent) and an empty shape are falsy. -/
def truthyShape : Option (List Nat) → Bool
  | Option.none => false
  | some l => !l.isEmpty

/-- The warning logged when a model has no usable `input_shape` (two adjacent
Python string literals, concatenated with no space, as in the source). -/
def traceWarningMsg : String :=
  "This model doesn" ++ sq ++ "t implement input_shape." ++
    "Cannot save torchscripted model."

/-- `"Saving torchscript to '{}'...".format(folder)`. -/
def savingMsg (folder : String) : String :=
  "Saving torchscript to " ++ sq ++ folder ++ (sq ++ "...")

/-- `"Torchscript folder '{}' does not exist.".format(folder)`, grouped so the
configured folder appears literally between a prefix and a suffix. -/
def missingFolderMsg (folder : String) : String :=
  "Torchscript folder " ++ sq ++ folder ++ (sq ++ " does not exist.")

/-- Message of the `AttributeError` Python raises when `.to` is looked up on
`None`. -/
def noneToMsg : String :=
  sq ++ "NoneType" ++ sq ++ " object has no attribute " ++ sq ++ "to" ++ sq

/-- `torchscript.to(self.device)`: on the `None` returned by a skipped trace
this raises `AttributeError`; on a program it relocates it to the device. -/
def progTo (p : Option Program) (d : String) : Except PyError Program :=
  match p with
  | Option.none => Except.error (PyError.attributeError noneToMsg)
  | some prog => Except.ok ⟨prog.viaTrace, prog.strict, d, prog.source⟩

/-- `TorchscriptHook.torchscript_using_trace`.  Reads `model.input_shape` if
present (else `None`); on a falsy shape logs a warning and returns `None`.
Otherwise builds the dummy input (`get_model_dummy_input` is modelled from the
spec as an opaque builder receiving the shape and the optional `input_key`),
then runs `torch.jit.trace` inside `with eval_model(model) and torch.no_grad():`
— by Python semantics only the right operand of `and` is entered. -/
def TorchscriptHook.torchscript_using_trace (hook : TorchscriptHook) (env : Env)
    (model : Model) (s : RunState) :
    RunState × List Effect × Except PyError (Option Program) :=
  let input_shape := model.input_shape
  if truthyShape input_shape then
    let shape := input_shape.getD []
    let effIn : List Effect := [Effect.getDummyInput shape model.input_key]
    let r := withCM (pyAnd CMKind.evalModelCM CMKind.noGradCM)
      (fun s1 =>
        if env.tracerFails then
          (s1, [Effect.jitTrace hook.trace_strict s1.modelTraining s1.gradEnabled],
            Except.error PyError.tracerError)
        else
          (s1, [Effect.jitTrace hook.trace_strict s1.modelTraining s1.gradEnabled],
            Except.ok (some ⟨true, hook.trace_strict, model.modelDevice, model.arch⟩)))
      s
    (r.1, effIn ++ r.2.1, r.2.2)
  else
    (s, [Effect.logWarning traceWarningMsg], Except.ok Option.none)

/-- `TorchscriptHook.torchscript_using_script`: runs `torch.jit.script(model)`
inside the same `with eval_model(model) and torch.no_grad():` line. -/
def TorchscriptHook.torchscript_using_script (hook : TorchscriptHook) (env : Env)
    (model : Model) (s : RunState) :
    RunState × List Effect × Except PyError (Option Program) :=
  let r := withCM (pyAnd CMKind.evalModelCM CMKind.noGradCM)
    (fun s1 =>
      if env.scripterFails then
        (s1, [Effect.jitScript s1.modelTraining s1.gradEnabled],
          Except.error PyError.scripterError)
      else
        (s1, [Effect.jitScript s1.modelTraining s1.gradEnabled],
          Except.ok (some ⟨false, false, model.modelDevice, model.arch⟩)))
    s
  (r.1, r.2.1, r.2.2)

/-- `TorchscriptHook.save_torchscript`: select the strategy, log, relocate the
result with `.to(self.device)`, then open `{folder}/{TORCHSCRIPT_FILE}` in
binary write mode inside a `with` (so the handle is closed on every path) and
serialize the program into it. -/
def TorchscriptHook.save_torchscript (hook : TorchscriptHook) (env : Env)
    (model : Model) (s : RunState) : RunState × List Effect × Except PyError Unit :=
  let r := if hook.use_trace then hook.torchscript_using_trace env model s
    else hook.torchscript_using_script env model s
  match r.2.2 with
  | Except.error e => (r.1, r.2.1, Except.error e)
  | Except.ok torchscript =>
    let effLog : List Effect := [Effect.logInfo (savingMsg hook.torchscript_folder)]
    match progTo torchscript hook.device with
    | Except.error e => (r.1, r.2.1 ++ effLog, Except.error e)
    | Except.ok prog =>
      let torchscript_name := hook.torchscript_folder ++ "/" ++ TORCHSCRIPT_FILE
      let effIO : List Effect :=
        [Effect.openFile torchscript_name "wb", Effect.jitSave prog,
          Effect.closeFile torchscript_name]
      if env.writeFails then
        (r.1, r.2.1 ++ effLog ++ effIO, Except.error PyError.storageWriteError)
      else
        (r.1, r.2.1 ++ effLog ++ effIO, Except.ok ())

/-- `TorchscriptHook.on_start`: a non-primary process returns immediately;
otherwise query the path manager and raise `FileNotFoundError` if the
configured folder does not exist. -/
def TorchscriptHook.on_start (hook : TorchscriptHook) (env : Env) (s : RunState) :
    RunState × List Effect × Except PyError Unit :=
  if env.isPrimary then
    if env.folderExists then
      (s, [Effect.queryExists hook.torchscript_folder], Except.ok ())
    else
      (s, [Effect.queryExists hook.torchscript_folder],
        Except.error (PyError.fileNotFoundError (missingFolderMsg hook.torchscript_folder)))
  else
    (s, [], Except.ok ())

/-- `TorchscriptHook.on_end`: a non-primary process returns immediately;
otherwise save the torchscript. -/
def TorchscriptHook.on_end (hook : TorchscriptHook) (env : Env) (model : Model)
    (s : RunState) : RunState × List Effect × Except PyError Unit :=
  if env.isPrimary then hook.save_torchscript env model s
  else (s, [], Except.ok ())

/-- `on_phase_start = ClassyHook._noop`. -/
def TorchscriptHook.on_phase_start (hook : TorchscriptHook) (env : Env)
    (s : RunState) : RunState × List Effect × Except PyError Unit :=
  (s, [], Except.ok ())

/-- `on_phase_end = ClassyHook._noop`. -/
def TorchscriptHook.on_phase_end (hook : TorchscriptHook) (env : Env)
    (s : RunState) : RunState × List Effect × Except PyError Unit :=
  (s, [], Except.ok ())

/-- `on_step = ClassyHook._noop`. -/
def TorchscriptHook.on_step (hook : TorchscriptHook) (env : Env)
    (s : RunState) : RunState × List Effect × Except PyError Unit :=
  (s, [], Except.ok ())

/-- Recognizer for file-opening effects. -/
def isOpenEffect : Effect → Bool
  | Effect.openFile _ _ => true
  | _ => false

/-- A trace-mode hook writing under "checkpoints". -/
def hookT : TorchscriptHook := ⟨"checkpoints", true, true, "cpu"⟩

/-- A script-mode hook writing under "checkpoints". -/
def hookS : TorchscriptHook := ⟨"checkpoints", false, true, "cpu"⟩

/-- Primary process, folder exists, every collaborator succeeds. -/
def envOK : Env := ⟨true, true, false, false, false⟩

/-- Non-primary process in the most hostile surroundings: the folder is
missing and every collaborator would fail if reached. -/
def envNP : Env := ⟨false, false, true, true, true⟩

/-- Primary process, configured folder missing. -/
def envMissing : Env := ⟨true, false, false, false, false⟩

/-- Primary process, tracer raises. -/
def envTraceFail : Env := ⟨true, true, true, false, false⟩

/-- Primary process, scripter raises. -/
def envScriptFail : Env := ⟨true, true, false, true, false⟩

/-- Primary process, serialization into the open handle raises. -/
def envWriteFail : Env := ⟨true, true, false, false, true⟩

/-- A model with no `input_shape` attribute at all. -/
def modelNoShape : Model := ⟨7, "cuda", Option.none, Option.none⟩

/-- A model whose `input_shape` attribute is present but empty (falsy). -/
def modelEmptyShape : Model := ⟨7, "cuda", some [], Option.none⟩

/-- A model with `input_shape = [1, 3, 224, 224]` and no `input_key`. -/
def modelShaped : Model := ⟨7, "cuda", some [1, 3, 224, 224], Option.none⟩

/-- A run state in which the model is training and gradients are enabled. -/
def sTrain : RunState := ⟨true, true⟩

/-- `on_end` returns the run state it was given: the only state turns are the
no-grad enter/exit of the one context manager the buggy `with` line enters,
and that pair restores the gradient flag. -/
theorem TorchscriptHook.on_end_state (hook : TorchscriptHook) (env : Env)
    (model : Model) (s : RunState) : (hook.on_end env model s).1 = s := by
  obtain ⟨ip, fe, tf, sf, wf⟩ := env
  obtain ⟨folder, ut, ts, dev⟩ := hook
  obtain ⟨mt, ge⟩ := s
  cases ip <;> cases ut <;> cases tf <;> cases sf <;> cases wf <;>
    cases hts : truthyShape model.input_shape <;>
      simp [TorchscriptHook.on_end, TorchscriptHook.save_torchscript,
        TorchscriptHook.torchscript_using_trace, TorchscriptHook.torchscript_using_script,
        withCM, cmEnter, cmExit, pyAnd, CMKind.truthy, progTo, hts]

/-- C1 (code bug): on the primary process, with `use_trace = true` and a model
exposing no `input_shape`, `on_end` does log the no-shape warning and opens no
file, but it does not return normally: `torchscript_using_trace` returns `None`
and `save_torchscript` then evaluates `None.to(self.device)`, so the call raises
`AttributeError` instead of silently skipping the export. -/
theorem C1_missing_shape_on_end_raises :
    hookT.on_end envOK modelNoShape sTrain =
      (sTrain, [Effect.logWarning traceWarningMsg,
        Effect.logInfo (savingMsg "checkpoints")],
        Except.error (PyError.attributeError noneToMsg)) ∧
    (∀ p m, Effect.openFile p m ∉ (hookT.on_end envOK modelNoShape sTrain).2.1) := by
  refine ⟨rfl, ?_⟩
  intro p m h
  rw [show (hookT.on_end envOK modelNoShape sTrain).2.1 =
    [Effect.logWarning traceWarningMsg, Effect.logInfo (savingMsg "checkpoints")]
      from rfl] at h
  simp at h

/-- C2 (code bug): the line `with eval_model(model) and torch.no_grad():`
enters only `torch.no_grad()` (Python `and` on a truthy left operand yields the
right operand), so under both strategies the tracer/scripter runs with the
model still in training mode, and eval mode is neither entered nor restored;
only gradient tracking is disabled. -/
theorem C2_eval_mode_never_entered :
    (Effect.jitTrace true true false ∈ (hookT.on_end envOK modelShaped sTrain).2.1 ∧
      Effect.enterEval ∉ (hookT.on_end envOK modelShaped sTrain).2.1 ∧
      Effect.exitEval ∉ (hookT.on_end envOK modelShaped sTrain).2.1) ∧
    (Effect.jitScript true false ∈ (hookS.on_end envOK modelShaped sTrain).2.1 ∧
      Effect.enterEval ∉ (hookS.on_end envOK modelShaped sTrain).2.1 ∧
      Effect.exitEval ∉ (hookS.on_end envOK modelShaped sTrain).2.1) := by
  decide

/-- C3 (confirmed): on a non-primary process, `on_start` and `on_end` return
at once with no effects (no filesystem access) and no error, whatever the hook
configuration, model and surroundings. -/
theorem C3_non_primary_noop (hook : TorchscriptHook) (env : Env) (model : Model)
    (s : RunState) (h : env.isPrimary = false) :
    hook.on_start env s = (s, [], Except.ok ()) ∧
    hook.on_end env model s = (s, [], Except.ok ()) := by
  constructor <;>
    simp [TorchscriptHook.on_start, TorchscriptHook.on_end, h]

/-- Witness for C3 at a concrete hook, a missing folder, failing collaborators
and a model with no shape. -/
theorem C3_non_primary_noop_witness :
    hookT.on_start envNP sTrain = (sTrain, [], Except.ok ()) ∧
    hookT.on_end envNP modelNoShape sTrain = (sTrain, [], Except.ok ()) :=
  C3_non_primary_noop hookT envNP modelNoShape sTrain rfl

/-- C4 (confirmed): on the primary process, if the configured folder does not
exist `on_start` raises `FileNotFoundError` with a message containing the
configured path; if it exists, `on_start` only queries the path manager and
returns without error and without opening or writing anything. -/
theorem C4_on_start_checks_folder (hook : TorchscriptHook) (env : Env)
    (s : RunState) (h : env.isPrimary = true) :
    (env.folderExists = false →
      (hook.on_start env s).2.2 =
        Except.error (PyError.fileNotFoundError (missingFolderMsg hook.torchscript_folder)) ∧
      ∃ p q, missingFolderMsg hook.torchscript_folder =
        p ++ hook.torchscript_folder ++ q) ∧
    (env.folderExists = true →
      hook.on_start env s =
        (s, [Effect.queryExists hook.torchscript_folder], Except.ok ())) := by
  constructor
  · intro hf
    refine ⟨?_, ⟨"Torchscript folder " ++ sq, sq ++ " does not exist.", rfl⟩⟩
    simp [TorchscriptHook.on_start, h, hf]
  · intro hf
    simp [TorchscriptHook.on_start, h, hf]

/-- Witness for C4: the missing-folder branch at a concrete hook. -/
theorem C4_on_start_checks_folder_witness :
    (hookT.on_start envMissing sTrain).2.2 =
      Except.error (PyError.fileNotFoundError (missingFolderMsg "checkpoints")) :=
  ((C4_on_start_checks_folder hookT envMissing sTrain rfl).1 rfl).1

/-- C8 (confirmed): construction succeeds exactly on string folder arguments
(the empty string included), storing all four configuration values verbatim;
any non-string folder argument fails with the `isinstance` assertion; the
defaulted constructor uses `use_trace = true`, `trace_strict = true`,
`device = "cpu"`. -/
theorem C8_constructor_contract :
    (∀ s u t d, TorchscriptHook.init (PyValue.str s) u t d =
      Except.ok ⟨s, u, t, d⟩) ∧
    (∀ v u t d, (∀ s, v ≠ PyValue.str s) →
      TorchscriptHook.init v u t d =
        Except.error (PyError.assertionError assertMsg)) ∧
    (∀ s, TorchscriptHook.initWithDefaults (PyValue.str s) =
      Except.ok ⟨s, true, true, "cpu"⟩) := by
  refine ⟨fun s u t d => rfl, ?_, fun s => rfl⟩
  intro v u t d hv
  cases v with
  | str s => exact absurd rfl (hv s)
  | int n => rfl
  | boolean b => rfl
  | pyNone => rfl

/-- Witness for C8: a non-string argument is rejected, the empty string is
accepted and stored verbatim. -/
theorem C8_constructor_contract_witness :
    TorchscriptHook.init (PyValue.int 3) true true "cpu" =
      Except.error (PyError.assertionError assertMsg) ∧
    TorchscriptHook.init (PyValue.str "") false false "cuda" =
      Except.ok ⟨"", false, false, "cuda"⟩ :=
  ⟨C8_constructor_contract.2.1 (PyValue.int 3) true true "cpu"
      (fun s h => PyValue.noConfusion h),
    C8_constructor_contract.1 "" false false "cuda"⟩

/-- Whenever `on_end` opens a storage handle, the `with` block closes that same
handle on every exit path, success or failure. -/
theorem TorchscriptHook.open_implies_close (hook : TorchscriptHook) (env : Env)
    (model : Model) (s : RunState) (p m : String)
    (h : Effect.openFile p m ∈ (hook.on_end env model s).2.1) :
    Effect.closeFile p ∈ (hook.on_end env model s).2.1 := by
  obtain ⟨ip, fe, tf, sf, wf⟩ := env
  obtain ⟨folder, ut, ts, dev⟩ := hook
  obtain ⟨mt, ge⟩ := s
  revert h
  cases ip <;> cases ut <;> cases tf <;> cases sf <;> cases wf <;>
    cases hts : truthyShape model.input_shape <;>
      simp [TorchscriptHook.on_end, TorchscriptHook.save_torchscript,
        TorchscriptHook.torchscript_using_trace, TorchscriptHook.torchscript_using_script,
        withCM, cmEnter, cmExit, pyAnd, CMKind.truthy, progTo, hts] <;>
      tauto

/-- C5 (confirmed): on the primary process, with `use_trace = true`, a truthy
`input_shape` and succeeding collaborators, `on_end` builds one dummy input
from the shape and the optional `input_key`, runs the tracer with the
configured strictness, relocates the program to the configured device, and
opens exactly one file, `{folder}/torchscript.pt`, in mode "wb". -/
theorem C5_trace_export_nominal (hook : TorchscriptHook) (env : Env)
    (model : Model) (s : RunState) (hp : env.isPrimary = true)
    (hut : hook.use_trace = true) (hsh : truthyShape model.input_shape = true)
    (htf : env.tracerFails = false) (hwf : env.writeFails = false) :
    hook.on_end env model s =
      (s, [Effect.getDummyInput (model.input_shape.getD []) model.input_key,
        Effect.enterNoGrad,
        Effect.jitTrace hook.trace_strict s.modelTraining false,
        Effect.exitNoGrad,
        Effect.logInfo (savingMsg hook.torchscript_folder),
        Effect.openFile (hook.torchscript_folder ++ "/" ++ TORCHSCRIPT_FILE) "wb",
        Effect.jitSave ⟨true, hook.trace_strict, hook.device, model.arch⟩,
        Effect.closeFile (hook.torchscript_folder ++ "/" ++ TORCHSCRIPT_FILE)],
        Except.ok ()) ∧
    (hook.on_end env model s).2.1.filter isOpenEffect =
      [Effect.openFile (hook.torchscript_folder ++ "/" ++ TORCHSCRIPT_FILE) "wb"] := by
  have heq : hook.on_end env model s =
      (s, [Effect.getDummyInput (model.input_shape.getD []) model.input_key,
        Effect.enterNoGrad,
        Effect.jitTrace hook.trace_strict s.modelTraining false,
        Effect.exitNoGrad,
        Effect.logInfo (savingMsg hook.torchscript_folder),
        Effect.openFile (hook.torchscript_folder ++ "/" ++ TORCHSCRIPT_FILE) "wb",
        Effect.jitSave ⟨true, hook.trace_strict, hook.device, model.arch⟩,
        Effect.closeFile (hook.torchscript_folder ++ "/" ++ TORCHSCRIPT_FILE)],
        Except.ok ()) := by
    simp [TorchscriptHook.on_end, TorchscriptHook.save_torchscript,
      TorchscriptHook.torchscript_using_trace, withCM, cmEnter, cmExit, pyAnd,
      CMKind.truthy, progTo, hp, hut, hsh, htf, hwf]
  refine ⟨heq, ?_⟩
  rw [heq]
  rfl

/-- Witness for C5 with shape `[1, 3, 224, 224]` and no key. -/
theorem C5_trace_export_nominal_witness :
    hookT.on_end envOK modelShaped sTrain =
      (sTrain, [Effect.getDummyInput [1, 3, 224, 224] Option.none,
        Effect.enterNoGrad, Effect.jitTrace true true false, Effect.exitNoGrad,
        Effect.logInfo (savingMsg "checkpoints"),
        Effect.openFile ("checkpoints" ++ "/" ++ TORCHSCRIPT_FILE) "wb",
        Effect.jitSave ⟨true, true, "cpu", 7⟩,
        Effect.closeFile ("checkpoints" ++ "/" ++ TORCHSCRIPT_FILE)],
        Except.ok ()) ∧
    (hookT.on_end envOK modelShaped sTrain).2.1.filter isOpenEffect =
      [Effect.openFile ("checkpoints" ++ "/" ++ TORCHSCRIPT_FILE) "wb"] :=
  C5_trace_export_nominal hookT envOK modelShaped sTrain rfl rfl rfl rfl rfl

/-- C6 (confirmed): with `use_trace = false` the scripter is invoked directly
on the model; the procedure reads neither `input_shape` nor `input_key` (its
outcome is unchanged under any values of the two attributes), and for any
model the scripter accepts it produces a program. -/
theorem C6_script_ignores_shape (hook : TorchscriptHook) (env : Env)
    (s : RunState) (h : hook.use_trace = false) (hsf : env.scripterFails = false)
    (a : Nat) (d : String) (sh1 sh2 : Option (List Nat)) (k1 k2 : Option String) :
    hook.save_torchscript env ⟨a, d, sh1, k1⟩ s =
      hook.save_torchscript env ⟨a, d, sh2, k2⟩ s ∧
    (hook.torchscript_using_script env ⟨a, d, sh1, k1⟩ s).2.2 =
      Except.ok (some ⟨false, false, d, a⟩) ∧
    Effect.jitScript s.modelTraining false ∈
      (hook.save_torchscript env ⟨a, d, sh1, k1⟩ s).2.1 := by
  refine ⟨?_, ?_, ?_⟩
  · simp [TorchscriptHook.save_torchscript, TorchscriptHook.torchscript_using_script,
      withCM, cmEnter, cmExit, pyAnd, CMKind.truthy, progTo, h, hsf]
  · simp [TorchscriptHook.torchscript_using_script, withCM, cmEnter, cmExit,
      pyAnd, CMKind.truthy, hsf]
  · cases hwf : env.writeFails <;>
      simp [TorchscriptHook.save_torchscript, TorchscriptHook.torchscript_using_script,
        withCM, cmEnter, cmExit, pyAnd, CMKind.truthy, progTo, h, hsf, hwf]

/-- Witness for C6 comparing a shaped and a shapeless model under scripting. -/
theorem C6_script_ignores_shape_witness :
    hookS.save_torchscript envOK modelShaped sTrain =
      hookS.save_torchscript envOK modelNoShape sTrain ∧
    (hookS.torchscript_using_script envOK modelShaped sTrain).2.2 =
      Except.ok (some ⟨false, false, "cuda", 7⟩) ∧
    Effect.jitScript true false ∈
      (hookS.save_torchscript envOK modelShaped sTrain).2.1 :=
  C6_script_ignores_shape hookS envOK sTrain rfl rfl 7 "cuda"
    (some [1, 3, 224, 224]) Option.none Option.none Option.none

/-- C7 (confirmed): on the primary process, tracer, scripter and storage-write
failures surface from `on_end` with their original identity (nothing is caught
or retried); when the tracer or scripter raises, no storage handle is ever
opened; and any opened handle is closed on every exit path. -/
theorem C7_errors_propagate (hook : TorchscriptHook) (env : Env) (model : Model)
    (s : RunState) (hp : env.isPrimary = true) :
    (hook.use_trace = true → truthyShape model.input_shape = true →
      env.tracerFails = true →
      (hook.on_end env model s).2.2 = Except.error PyError.tracerError ∧
      ∀ p m, Effect.openFile p m ∉ (hook.on_end env model s).2.1) ∧
    (hook.use_trace = false → env.scripterFails = true →
      (hook.on_end env model s).2.2 = Except.error PyError.scripterError ∧
      ∀ p m, Effect.openFile p m ∉ (hook.on_end env model s).2.1) ∧
    (hook.use_trace = false → env.scripterFails = false → env.writeFails = true →
      (hook.on_end env model s).2.2 = Except.error PyError.storageWriteError) ∧
    (hook.use_trace = true → truthyShape model.input_shape = true →
      env.tracerFails = false → env.writeFails = true →
      (hook.on_end env model s).2.2 = Except.error PyError.storageWriteError) ∧
    (∀ p m, Effect.openFile p m ∈ (hook.on_end env model s).2.1 →
      Effect.closeFile p ∈ (hook.on_end env model s).2.1) := by
  refine ⟨?_, ?_, ?_, ?_, fun p m hm => hook.open_implies_close env model s p m hm⟩
  · intro hut hsh htf
    constructor
    · simp [TorchscriptHook.on_end, TorchscriptHook.save_torchscript,
        TorchscriptHook.torchscript_using_trace, withCM, cmEnter, cmExit, pyAnd,
        CMKind.truthy, hp, hut, hsh, htf]
    · intro p m hm
      simp [TorchscriptHook.on_end, TorchscriptHook.save_torchscript,
        TorchscriptHook.torchscript_using_trace, withCM, cmEnter, cmExit, pyAnd,
        CMKind.truthy, hp, hut, hsh, htf] at hm
  · intro hut hsf
    constructor
    · simp [TorchscriptHook.on_end, TorchscriptHook.save_torchscript,
        TorchscriptHook.torchscript_using_script, withCM, cmEnter, cmExit, pyAnd,
        CMKind.truthy, hp, hut, hsf]
    · intro p m hm
      simp [TorchscriptHook.on_end, TorchscriptHook.save_torchscript,
        TorchscriptHook.torchscript_using_script, withCM, cmEnter, cmExit, pyAnd,
        CMKind.truthy, hp, hut, hsf] at hm
  · intro hut hsf hwf
    simp [TorchscriptHook.on_end, TorchscriptHook.save_torchscript,
      TorchscriptHook.torchscript_using_script, withCM, cmEnter, cmExit, pyAnd,
      CMKind.truthy, progTo, hp, hut, hsf, hwf]
  · intro hut hsh htf hwf
    simp [TorchscriptHook.on_end, TorchscriptHook.save_torchscript,
      TorchscriptHook.torchscript_using_trace, withCM, cmEnter, cmExit, pyAnd,
      CMKind.truthy, progTo, hp, hut, hsh, htf, hwf]

/-- Witness for C7: a scripter failure surfaces as itself and no file is
opened. -/
theorem C7_errors_propagate_witness :
    (hookS.on_end envScriptFail modelShaped sTrain).2.2 =
      Except.error PyError.scripterError ∧
    ∀ p m, Effect.openFile p m ∉ (hookS.on_end envScriptFail modelShaped sTrain).2.1 :=
  (C7_errors_propagate hookS envScriptFail modelShaped sTrain rfl).2.1 rfl rfl

/-- C9 (confirmed): the hook carries no mutable state: the phase and step
callbacks are no-ops, `on_end` hands back the run state it received, so a
second `on_end` reproduces the first call exactly, and in the nominal script
path each call performs a full export to the one fixed file path without
error.  (The configuration itself is immutable by construction: every
operation takes the hook as a read-only value.) -/
theorem C9_hook_is_stateless :
    (∀ (hook : TorchscriptHook) (env : Env) (s : RunState),
      hook.on_phase_start env s = (s, [], Except.ok ()) ∧
      hook.on_phase_end env s = (s, [], Except.ok ()) ∧
      hook.on_step env s = (s, [], Except.ok ())) ∧
    (∀ (hook : TorchscriptHook) (env : Env) (model : Model) (s : RunState),
      (hook.on_end env model s).1 = s ∧
      hook.on_end env model ((hook.on_end env model s).1) =
        hook.on_end env model s) ∧
    (∀ (hook : TorchscriptHook) (env : Env) (model : Model) (s : RunState),
      env.isPrimary = true → hook.use_trace = false →
      env.scripterFails = false → env.writeFails = false →
      hook.on_end env model s =
        (s, [Effect.enterNoGrad, Effect.jitScript s.modelTraining false,
          Effect.exitNoGrad, Effect.logInfo (savingMsg hook.torchscript_folder),
          Effect.openFile (hook.torchscript_folder ++ "/" ++ TORCHSCRIPT_FILE) "wb",
          Effect.jitSave ⟨false, false, hook.device, model.arch⟩,
          Effect.closeFile (hook.torchscript_folder ++ "/" ++ TORCHSCRIPT_FILE)],
          Except.ok ())) := by
  refine ⟨fun hook env s => ⟨rfl, rfl, rfl⟩, fun hook env model s =>
    ⟨hook.on_end_state env model s, by rw [hook.on_end_state env model s]⟩, ?_⟩
  intro hook env model s hp hut hsf hwf
  simp [TorchscriptHook.on_end, TorchscriptHook.save_torchscript,
    TorchscriptHook.torchscript_using_script, withCM, cmEnter, cmExit, pyAnd,
    CMKind.truthy, progTo, hp, hut, hsf, hwf]

/-- Witness for C9: a concrete nominal script-mode export. -/
theorem C9_hook_is_stateless_witness :
    hookS.on_end envOK modelShaped sTrain =
      (sTrain, [Effect.enterNoGrad, Effect.jitScript true false, Effect.exitNoGrad,
        Effect.logInfo (savingMsg "checkpoints"),
        Effect.openFile ("checkpoints" ++ "/" ++ TORCHSCRIPT_FILE) "wb",
        Effect.jitSave ⟨false, false, "cpu", 7⟩,
        Effect.closeFile ("checkpoints" ++ "/" ++ TORCHSCRIPT_FILE)],
        Except.ok ()) :=
  C9_hook_is_stateless.2.2 hookS envOK modelShaped sTrain rfl rfl rfl rfl

/-- C10 (confirmed): `torchscript_using_trace` treats a present-but-empty
`input_shape` exactly like an absent one — warning, `None` result, no dummy
input, no tracer call — and the tracer is invoked precisely when the shape is
truthy. -/
theorem C10_falsy_shape_skips (hook : TorchscriptHook) (env : Env) (s : RunState) :
    (∀ a d k, hook.torchscript_using_trace env ⟨a, d, some [], k⟩ s =
        hook.torchscript_using_trace env ⟨a, d, Option.none, k⟩ s ∧
      hook.torchscript_using_trace env ⟨a, d, Option.none, k⟩ s =
        (s, [Effect.logWarning traceWarningMsg], Except.ok Option.none)) ∧
    (∀ model : Model, (∃ t g, Effect.jitTrace hook.trace_strict t g ∈
        (hook.torchscript_using_trace env model s).2.1) ↔
      truthyShape model.input_shape = true) := by
  refine ⟨fun a d k => ⟨rfl, rfl⟩, ?_⟩
  intro model
  cases hts : truthyShape model.input_shape with
  | true =>
    cases htf : env.tracerFails <;>
      simp [TorchscriptHook.torchscript_using_trace, hts, htf, withCM, cmEnter,
        cmExit, pyAnd, CMKind.truthy]
  | false =>
    simp [TorchscriptHook.torchscript_using_trace, hts]

/-- Witness for C10: the empty shape and the absent shape coincide and skip. -/
theorem C10_falsy_shape_skips_witness :
    hookT.torchscript_using_trace envOK modelEmptyShape sTrain =
      hookT.torchscript_using_trace envOK modelNoShape sTrain ∧
    hookT.torchscript_using_trace envOK modelNoShape sTrain =
      (sTrain, [Effect.logWarning traceWarningMsg], Except.ok Option.none) :=
  (C10_falsy_shape_skips hookT envOK sTrain).1 7 "cuda" Option.none

end ClassyVision
